import Mathlib

/-!
Shallow embedding of the ESP32-S3 Control Pilot firmware
(src/firmware/esp32s3_cp/src/main.cpp): the CP state classifier with
hysteresis and debounce, the auto-calibration routine, the contactor
safety interlock with its keepalive failsafe, and the status-frame field
layout.  Millisecond timestamps are `Nat` values understood modulo 2^32
(the firmware's `uint32_t millis()`); millivolt readings are `Int`
(the firmware's `int`).
-/

namespace CpFw

/-- 2^32, the modulus of the firmware's `uint32_t` arithmetic. -/
def U32 : Nat := 4294967296

/-- 2^31, the signed/unsigned boundary of `int32_t`. -/
def I32HALF : Nat := 2147483648

/-- `uint32_t` subtraction `a - b` (wrap-around), as used on `millis()`
timestamps throughout the firmware. -/
def sub32 (a b : Nat) : Nat :=
  (a % U32 + U32 - b % U32) % U32

/-- Reinterpret a `uint32_t` value as `int32_t` (the cast
`(int32_t)(millis() - g_armed_until_ms)` in `process_line`). -/
def int32OfUInt32 (u : Nat) : Int :=
  if u % U32 < I32HALF then ((u % U32 : Nat) : Int)
  else ((u % U32 : Nat) : Int) - (U32 : Int)

/-- The J1772 pilot states `'A'..'F'` of `g_last_cp_state`. -/
inductive CpState where
  | A | B | C | D | E | F
deriving DecidableEq, Repr

/-- The runtime-adjustable threshold set `g_th_12 .. g_th_0, g_hys, g_hys_ab`. -/
structure Thresholds where
  t12 : Int
  t9 : Int
  t6 : Int
  t3 : Int
  t0 : Int
  hys : Int
  hysAb : Int
deriving DecidableEq, Repr

/-- The compile-time defaults `CP_1_ADC_THRESHOLD_12 ..` and the two
hysteresis constants. -/
def defaultThresholds : Thresholds :=
  ⟨2400, 2000, 1700, 1450, 1250, 150, 100⟩

/-- `cp_state_from_mv`: hysteresis-free band mapping from a millivolt
plateau to a pilot state. -/
def cp_state_from_mv (th : Thresholds) (mv : Int) : CpState :=
  if mv ≥ th.t12 then .A
  else if mv ≥ th.t9 then .B
  else if mv ≥ th.t6 then .C
  else if mv ≥ th.t3 then .D
  else if mv ≥ th.t0 then .E
  else .F

/-- `cp_state_with_hysteresis`: the hysteresis wrapper around
`cp_state_from_mv`, switching only when `mv` clears the relevant band
boundary by the applicable margin. -/
def cp_state_with_hysteresis (th : Thresholds) (mv : Int) (last : CpState) : CpState :=
  match last with
  | .A =>
      if mv < th.t12 - th.hysAb then cp_state_from_mv th mv else .A
  | .B =>
      if mv ≥ th.t12 + th.hys then .A
      else if mv < th.t9 - th.hys then cp_state_from_mv th mv
      else .B
  | .C =>
      if mv ≥ th.t9 + th.hys then .B
      else if mv < th.t6 - th.hys then cp_state_from_mv th mv
      else .C
  | .D =>
      if mv ≥ th.t6 + th.hys then .C
      else if mv < th.t3 - th.hys then cp_state_from_mv th mv
      else .D
  | .E =>
      if mv ≥ th.t3 + th.hys then .D
      else if mv < th.t0 - th.hys then .F
      else .E
  | .F =>
      if mv ≥ th.t0 + th.hys then .E
      else .F

/-- `mv_strong_in_state`: whether `mv` is comfortably inside the band of
`st`, beyond the general hysteresis margin on both sides. -/
def mv_strong_in_state (th : Thresholds) (mv : Int) (st : CpState) : Bool :=
  match st with
  | .A => th.t12 + th.hys ≤ mv
  | .B => th.t9 + th.hys ≤ mv && mv < th.t12 - th.hys
  | .C => th.t6 + th.hys ≤ mv && mv < th.t9 - th.hys
  | .D => th.t3 + th.hys ≤ mv && mv < th.t6 - th.hys
  | .E => th.t0 + th.hys ≤ mv && mv < th.t3 - th.hys
  | .F => mv < th.t0 - th.hys

/-- `is_connected_state`: B, C and D are the vehicle-connected states. -/
def is_connected_state (st : CpState) : Bool :=
  match st with
  | .B => true
  | .C => true
  | .D => true
  | _ => false

/-- Claim C9: with ordered thresholds, `cp_state_from_mv` partitions the
millivolt axis into the six contiguous bands A..F with no gaps:
A iff mv ≥ t12, B iff t9 ≤ mv < t12, C iff t6 ≤ mv < t9, D iff
t3 ≤ mv < t6, E iff t0 ≤ mv < t3, and F iff mv < t0. -/
theorem cp_state_from_mv_partitions (th : Thresholds) (mv : Int)
    (h129 : th.t9 < th.t12) (h96 : th.t6 < th.t9) (h63 : th.t3 < th.t6)
    (h30 : th.t0 < th.t3) :
    (cp_state_from_mv th mv = .A ↔ th.t12 ≤ mv) ∧
    (cp_state_from_mv th mv = .B ↔ th.t9 ≤ mv ∧ mv < th.t12) ∧
    (cp_state_from_mv th mv = .C ↔ th.t6 ≤ mv ∧ mv < th.t9) ∧
    (cp_state_from_mv th mv = .D ↔ th.t3 ≤ mv ∧ mv < th.t6) ∧
    (cp_state_from_mv th mv = .E ↔ th.t0 ≤ mv ∧ mv < th.t3) ∧
    (cp_state_from_mv th mv = .F ↔ mv < th.t0) := by
  unfold cp_state_from_mv
  split_ifs with h1 h2 h3 h4 h5 <;>
    refine ⟨⟨?_, ?_⟩, ⟨?_, ?_⟩, ⟨?_, ?_⟩, ⟨?_, ?_⟩, ⟨?_, ?_⟩, ⟨?_, ?_⟩⟩ <;>
    intro h <;> first
      | rfl
      | omega
      | (exact absurd h (by decide))

/-- Closed witness for C9 at the firmware's default thresholds and a
concrete reading of 2100 mV (state B). -/
theorem cp_state_from_mv_partitions_witness :
    cp_state_from_mv defaultThresholds 2100 = .B ∧
    (2000 : Int) ≤ 2100 ∧ (2100 : Int) < 2400 :=
  ⟨((cp_state_from_mv_partitions defaultThresholds 2100 (by decide) (by decide)
      (by decide) (by decide)).2.1).mpr (by decide), by decide, by decide⟩

set_option maxHeartbeats 2000000 in
/-- Claim C7: with ordered thresholds and nonnegative margins,
`cp_state_with_hysteresis` leaves its previous state only when the
plateau clears the relevant band boundary by the applicable margin:
leaving downward needs `mv` below the state's lower boundary minus `hys`
(minus `hys_ab` for leaving A), moving up to the adjacent higher band
needs `mv` at or above that boundary plus `hys`, upward moves reach only
the adjacent band, and every `mv` within the margins of the state's
boundaries returns the previous state unchanged. -/
theorem cp_hysteresis_margins (th : Thresholds) (mv : Int)
    (h129 : th.t9 < th.t12) (h96 : th.t6 < th.t9) (h63 : th.t3 < th.t6)
    (h30 : th.t0 < th.t3) (hh : 0 ≤ th.hys) (hab : 0 ≤ th.hysAb) :
    (th.t12 - th.hysAb ≤ mv → cp_state_with_hysteresis th mv .A = .A) ∧
    (cp_state_with_hysteresis th mv .A ≠ .A → mv < th.t12 - th.hysAb) ∧
    (cp_state_with_hysteresis th mv .B = .A → th.t12 + th.hys ≤ mv) ∧
    (cp_state_with_hysteresis th mv .B ≠ .A →
      cp_state_with_hysteresis th mv .B ≠ .B → mv < th.t9 - th.hys) ∧
    (th.t9 - th.hys ≤ mv → mv < th.t12 + th.hys →
      cp_state_with_hysteresis th mv .B = .B) ∧
    (cp_state_with_hysteresis th mv .C = .B → th.t9 + th.hys ≤ mv) ∧
    (cp_state_with_hysteresis th mv .C ≠ .A) ∧
    (cp_state_with_hysteresis th mv .C ≠ .B →
      cp_state_with_hysteresis th mv .C ≠ .C → mv < th.t6 - th.hys) ∧
    (th.t6 - th.hys ≤ mv → mv < th.t9 + th.hys →
      cp_state_with_hysteresis th mv .C = .C) ∧
    (cp_state_with_hysteresis th mv .D = .C → th.t6 + th.hys ≤ mv) ∧
    (cp_state_with_hysteresis th mv .D ≠ .A) ∧
    (cp_state_with_hysteresis th mv .D ≠ .B) ∧
    (cp_state_with_hysteresis th mv .D ≠ .C →
      cp_state_with_hysteresis th mv .D ≠ .D → mv < th.t3 - th.hys) ∧
    (th.t3 - th.hys ≤ mv → mv < th.t6 + th.hys →
      cp_state_with_hysteresis th mv .D = .D) ∧
    (cp_state_with_hysteresis th mv .E = .D → th.t3 + th.hys ≤ mv) ∧
    (cp_state_with_hysteresis th mv .E ≠ .A) ∧
    (cp_state_with_hysteresis th mv .E ≠ .B) ∧
    (cp_state_with_hysteresis th mv .E ≠ .C) ∧
    (cp_state_with_hysteresis th mv .E = .F → mv < th.t0 - th.hys) ∧
    (th.t0 - th.hys ≤ mv → mv < th.t3 + th.hys →
      cp_state_with_hysteresis th mv .E = .E) ∧
    (cp_state_with_hysteresis th mv .F = .E → th.t0 + th.hys ≤ mv) ∧
    (cp_state_with_hysteresis th mv .F = .E ∨ cp_state_with_hysteresis th mv .F = .F) ∧
    (mv < th.t0 + th.hys → cp_state_with_hysteresis th mv .F = .F) := by
  refine ⟨?_, ?_, ?_, ?_, ?_, ?_, ?_, ?_, ?_, ?_, ?_, ?_, ?_, ?_, ?_, ?_, ?_,
    ?_, ?_, ?_, ?_, ?_, ?_⟩ <;>
    simp only [cp_state_with_hysteresis, cp_state_from_mv] <;>
    split_ifs <;> intros <;>
    first
      | rfl
      | exact Or.inl rfl
      | exact Or.inr rfl
      | omega
      | decide
      | (exact absurd rfl (by assumption))
      | simp_all

/-- Closed witness for C7 at the default thresholds: from state B,
2100 mV is within the margins of both boundaries and the committed state
stays B. -/
theorem cp_hysteresis_margins_witness :
    cp_state_with_hysteresis defaultThresholds 2100 .B = .B :=
  (cp_hysteresis_margins defaultThresholds 2100 (by decide) (by decide) (by decide)
    (by decide) (by decide) (by decide)).2.2.2.2.1 (by decide) (by decide)

/-- The debounce state of the periodic loop: `g_last_cp_state`,
`g_pending_state`, `g_pending_count`. -/
structure EstState where
  last : CpState
  pendingState : CpState
  pendingCount : Nat
deriving DecidableEq, Repr

/-- `confirm_needed` in `loop`: 2 ticks when the plateau is strongly
inside the candidate's band, 4 otherwise. -/
def confirm_needed (th : Thresholds) (mv : Int) (cand : CpState) : Nat :=
  if mv_strong_in_state th mv cand then 2 else 4

/-- One periodic estimation tick of `loop`: candidate via hysteresis,
transient-low and A-blip bypasses, and the pending/confirmation counter
logic, acting on the current-burst robust plateau `mv` (= `smax`). -/
def estStep (th : Thresholds) (mv : Int) (s : EstState) : EstState :=
  let prev := s.last
  let cand := cp_state_with_hysteresis th mv prev
  let transientLow := is_connected_state prev && decide (mv < th.t0 - 150)
  let confirmNeeded := confirm_needed th mv cand
  let aBlip := is_connected_state prev && decide (cand = CpState.A) &&
    decide (mv < th.t12 + th.hys + 150)
  if !transientLow && !aBlip then
    if cand ≠ prev then
      if s.pendingState = cand then
        if s.pendingCount + 1 ≥ confirmNeeded then
          { last := cand, pendingState := s.pendingState, pendingCount := 0 }
        else
          { s with pendingCount := s.pendingCount + 1 }
      else
        { s with pendingState := cand, pendingCount := 1 }
    else
      { last := cand, pendingState := cand, pendingCount := 0 }
  else
    { s with pendingCount := s.pendingCount - 1 }

/-- A run of periodic estimation ticks over a list of plateau readings. -/
def runEst (th : Thresholds) (mvs : List Int) (s : EstState) : EstState :=
  mvs.foldl (fun s mv => estStep th mv s) s

/-- The boot state: `g_last_cp_state = 'A'`, `g_pending_state = 'A'`,
`g_pending_count = 0`. -/
def bootEstState : EstState := ⟨.A, .A, 0⟩

/-- When the hysteresis candidate equals a connected previous state, the
plateau is at least the state's lower boundary minus `hys` (so at least
`t3 - hys`). -/
lemma cand_eq_connected_not_low (th : Thresholds) (mv : Int) (st : CpState)
    (h129 : th.t9 < th.t12) (h96 : th.t6 < th.t9) (h63 : th.t3 < th.t6)
    (h30 : th.t0 < th.t3) (hh : 0 ≤ th.hys)
    (hc : is_connected_state st = true)
    (he : cp_state_with_hysteresis th mv st = st) :
    th.t3 - th.hys ≤ mv := by
  cases st <;> simp only [is_connected_state] at hc <;> try exact absurd hc (by decide)
  all_goals
    simp only [cp_state_with_hysteresis, cp_state_from_mv] at he
  all_goals split_ifs at he <;> omega

/-- A tick whose candidate matches the committed state commits nothing
and fully resets the pending counter, provided the thresholds are
ordered and `hys ≤ t3 - t0 + 150` (which rules out the transient-low
bypass on such a tick). -/
lemma estStep_match (th : Thresholds) (mv : Int) (s : EstState)
    (h129 : th.t9 < th.t12) (h96 : th.t6 < th.t9) (h63 : th.t3 < th.t6)
    (h30 : th.t0 < th.t3) (hh : 0 ≤ th.hys)
    (hbound : th.hys ≤ th.t3 - th.t0 + 150)
    (he : cp_state_with_hysteresis th mv s.last = s.last) :
    estStep th mv s = ⟨s.last, s.last, 0⟩ := by
  have hlow : is_connected_state s.last = true → ¬(mv < th.t0 - 150) := by
    intro hc
    have := cand_eq_connected_not_low th mv s.last h129 h96 h63 h30 hh hc he
    omega
  unfold estStep
  rcases hcon : is_connected_state s.last with _ | _
  · simp [hcon, he]
  · have hA : s.last ≠ CpState.A := by
      intro h; rw [h] at hcon; exact absurd hcon (by decide)
    simp [hcon, he, hA, hlow hcon]

/-- A tick whose candidate differs from both the committed state and the
pending state never commits: the committed state is unchanged. -/
lemma estStep_flip_last (th : Thresholds) (mv : Int) (s : EstState)
    (hne : cp_state_with_hysteresis th mv s.last ≠ s.last)
    (hpend : s.pendingState ≠ cp_state_with_hysteresis th mv s.last) :
    (estStep th mv s).last = s.last := by
  unfold estStep
  dsimp only
  split_ifs <;> simp_all

/-- Claim C8 (amended): with ordered thresholds, nonnegative `hys`, and
`hys ≤ t3 - t0 + 150` (so a tick whose candidate matches a connected
committed state can never coincide with the transient-low bypass), one
tick whose candidate differs from the committed state, preceded and
followed by ticks whose candidate matches the committed state, never
commits a state change; the confirmation threshold is always at least
2; and a tick whose candidate matches the committed state resets the
pending counter to zero. -/
theorem debounce_single_flip (th : Thresholds) (s0 : EstState) (mv1 mv2 mv3 : Int)
    (h129 : th.t9 < th.t12) (h96 : th.t6 < th.t9) (h63 : th.t3 < th.t6)
    (h30 : th.t0 < th.t3) (hh : 0 ≤ th.hys)
    (hbound : th.hys ≤ th.t3 - th.t0 + 150)
    (hm1 : cp_state_with_hysteresis th mv1 s0.last = s0.last)
    (hf : cp_state_with_hysteresis th mv2 (estStep th mv1 s0).last ≠
      (estStep th mv1 s0).last)
    (hm3 : cp_state_with_hysteresis th mv3
        (estStep th mv2 (estStep th mv1 s0)).last =
      (estStep th mv2 (estStep th mv1 s0)).last) :
    (estStep th mv2 (estStep th mv1 s0)).last = s0.last ∧
    (estStep th mv3 (estStep th mv2 (estStep th mv1 s0))).last = s0.last ∧
    (∀ mv cand, 2 ≤ confirm_needed th mv cand) ∧
    (∀ mv s, cp_state_with_hysteresis th mv s.last = s.last →
      (estStep th mv s).pendingCount = 0 ∧ (estStep th mv s).last = s.last) := by
  have hs1 : estStep th mv1 s0 = ⟨s0.last, s0.last, 0⟩ :=
    estStep_match th mv1 s0 h129 h96 h63 h30 hh hbound hm1
  have hs2 : (estStep th mv2 (estStep th mv1 s0)).last = s0.last := by
    rw [hs1] at hf ⊢
    exact estStep_flip_last th mv2 ⟨s0.last, s0.last, 0⟩ hf (fun h => hf h.symm)
  refine ⟨hs2, ?_, ?_, ?_⟩
  · rw [estStep_match th mv3 _ h129 h96 h63 h30 hh hbound hm3]
    exact hs2
  · intro mv cand
    unfold confirm_needed
    split <;> omega
  · intro mv s hmatch
    rw [estStep_match th mv s h129 h96 h63 h30 hh hbound hmatch]
    exact ⟨rfl, rfl⟩

/-- Closed witness for C8 (amended) at the default thresholds: from
committed state B, ticks at 2100 mV (candidate B), 1600 mV (candidate D)
and 2100 mV leave the committed state at B. -/
theorem debounce_single_flip_witness :
    (estStep defaultThresholds 1600 (estStep defaultThresholds 2100 ⟨.B, .B, 0⟩)).last =
      CpState.B ∧
    (estStep defaultThresholds 2100 (estStep defaultThresholds 1600
      (estStep defaultThresholds 2100 ⟨.B, .B, 0⟩))).last = CpState.B :=
  have h := debounce_single_flip defaultThresholds ⟨.B, .B, 0⟩ 2100 1600 2100
    (by decide) (by decide) (by decide) (by decide) (by decide) (by decide)
    (by decide) (by decide) (by decide)
  ⟨h.1, h.2.1⟩

/-- Counterexample for claim C8 as stated: with the ordered threshold
set (10000, 2000, 1700, 1450, 1250, hys 700, hys_ab 100) — reachable via
`cp.set_thresholds`, which enforces no ordering and only clamps the
margins to be nonnegative — a run from boot reaches committed state C
with pending state B at count 3; a tick at 1050 mV has candidate C
(matching the committed state) but takes the transient-low bypass, which
only decays the pending counter instead of resetting it, and the single
differing tick at 2800 mV (candidate B, strong, confirmation threshold
2) then commits C → B even though the ticks before and after it match
their committed states. -/
theorem debounce_single_flip_counterexample :
    (2000 : Int) < 10000 ∧ (1700 : Int) < 2000 ∧ (1450 : Int) < 1700 ∧
    (1250 : Int) < 1450 ∧ (0 : Int) ≤ 700 ∧
    cp_state_with_hysteresis ⟨10000, 2000, 1700, 1450, 1250, 700, 100⟩ 1050
        (runEst ⟨10000, 2000, 1700, 1450, 1250, 700, 100⟩
          [1850, 1850, 1850, 1850, 9400, 9400, 9400] bootEstState).last =
      (runEst ⟨10000, 2000, 1700, 1450, 1250, 700, 100⟩
          [1850, 1850, 1850, 1850, 9400, 9400, 9400] bootEstState).last ∧
    cp_state_with_hysteresis ⟨10000, 2000, 1700, 1450, 1250, 700, 100⟩ 2800
        (runEst ⟨10000, 2000, 1700, 1450, 1250, 700, 100⟩
          [1850, 1850, 1850, 1850, 9400, 9400, 9400, 1050] bootEstState).last ≠
      (runEst ⟨10000, 2000, 1700, 1450, 1250, 700, 100⟩
          [1850, 1850, 1850, 1850, 9400, 9400, 9400, 1050] bootEstState).last ∧
    cp_state_with_hysteresis ⟨10000, 2000, 1700, 1450, 1250, 700, 100⟩ 1850
        (runEst ⟨10000, 2000, 1700, 1450, 1250, 700, 100⟩
          [1850, 1850, 1850, 1850, 9400, 9400, 9400, 1050, 2800] bootEstState).last =
      (runEst ⟨10000, 2000, 1700, 1450, 1250, 700, 100⟩
          [1850, 1850, 1850, 1850, 9400, 9400, 9400, 1050, 2800] bootEstState).last ∧
    (runEst ⟨10000, 2000, 1700, 1450, 1250, 700, 100⟩
        [1850, 1850, 1850, 1850, 9400, 9400, 9400, 1050, 2800] bootEstState).last ≠
      (runEst ⟨10000, 2000, 1700, 1450, 1250, 700, 100⟩
        [1850, 1850, 1850, 1850, 9400, 9400, 9400, 1050] bootEstState).last := by
  decide

/-- The peripheral interlock state: `g_contactor_cmd`, `g_contactor_aux`,
`g_armed_until_ms`, `g_last_ping_ms`. -/
structure PeriphState where
  contactorCmd : Bool
  contactorAux : Bool
  armedUntilMs : Nat
  lastPingMs : Nat
deriving DecidableEq, Repr

/-- Boot values of the peripheral globals (false / 0). -/
def bootPeriphState : PeriphState := ⟨false, false, 0, 0⟩

/-- Outcome of a contactor RPC: an error frame with code and message, or
a result frame carrying `aux_ok`. -/
inductive CtResp where
  | err (code : Int) (message : String)
  | ok (auxOk : Bool)
deriving DecidableEq, Repr

/-- The armed-window check of the `contactor.set` handler:
`(int32_t)(millis() - g_armed_until_ms) > 0`. -/
def notArmed (now armedUntil : Nat) : Bool :=
  decide (0 < int32OfUInt32 (sub32 now armedUntil))

/-- The auxiliary-confirmation tail of the `contactor.set` handler: read
`aux_ok = (g_contactor_aux == g_contactor_cmd)` and, when turning on
without confirmation, force both flags off and fail with code 1002. -/
def contactor_confirm (onv : Bool) (s : PeriphState) : PeriphState × CtResp :=
  let auxOk := s.contactorAux == s.contactorCmd
  if !auxOk && onv then
    ({ s with contactorCmd := false, contactorAux := false }, .err 1002 "aux_mismatch")
  else
    (s, .ok auxOk)

/-- The `contactor.set` handler: armed-window check, then the simulated
actuation `g_contactor_cmd = on; g_contactor_aux = on` followed by the
confirmation check. -/
def contactor_set (now : Nat) (onv : Bool) (s : PeriphState) : PeriphState × CtResp :=
  if notArmed now s.armedUntilMs then (s, .err 1001 "not_armed")
  else contactor_confirm onv { s with contactorCmd := onv, contactorAux := onv }

/-- The `sys.arm` handler: `g_armed_until_ms = millis() + 1500`. -/
def sys_arm (now : Nat) (s : PeriphState) : PeriphState :=
  { s with armedUntilMs := (now + 1500) % U32 }

/-- The `sys.ping` handler's state effect: `g_last_ping_ms = millis()`. -/
def sys_ping (now : Nat) (s : PeriphState) : PeriphState :=
  { s with lastPingMs := now % U32 }

/-- The host commands that touch the interlock state. -/
inductive HostCmd where
  | sysPing
  | sysArm
  | contactorSet (onv : Bool)
deriving DecidableEq, Repr

/-- State effect of dispatching one parsed command line. -/
def process_cmd (now : Nat) (c : HostCmd) (s : PeriphState) : PeriphState :=
  match c with
  | .sysPing => sys_ping now s
  | .sysArm => sys_arm now s
  | .contactorSet onv => (contactor_set now onv s).1

/-- State after the command-dispatch phase of one loop iteration
(`none`: no complete line arrived this tick). -/
def post_cmd (now : Nat) (mc : Option HostCmd) (s : PeriphState) : PeriphState :=
  match mc with
  | none => s
  | some c => process_cmd now c s

/-- The keepalive failsafe at the end of `loop`: if more than 6000 ms
passed since the last `sys.ping` and the contactor is commanded on,
force it off; the returned flag records whether one
`evt:failsafe.keepalive` frame was emitted. -/
def keepalive_check (now : Nat) (s : PeriphState) : PeriphState × Bool :=
  if decide (6000 < sub32 now s.lastPingMs) && s.contactorCmd then
    ({ s with contactorCmd := false, contactorAux := false }, true)
  else
    (s, false)

/-- One iteration of `loop` restricted to the interlock state: dispatch
at most one command line, then run the keepalive check unconditionally. -/
def loop_tick (now : Nat) (mc : Option HostCmd) (s : PeriphState) : PeriphState × Bool :=
  keepalive_check now (post_cmd now mc s)

/-- A run of loop iterations with no host command arriving, returning
the final state and how many `evt:failsafe.keepalive` frames were
emitted. -/
def run_quiet : List Nat → PeriphState → PeriphState × Nat
  | [], s => (s, 0)
  | t :: rest, s =>
      ((run_quiet rest (loop_tick t none s).1).1,
        (if (loop_tick t none s).2 then 1 else 0) + (run_quiet rest (loop_tick t none s).1).2)

/-- `sub32` stays below 2^32. -/
lemma sub32_lt (a b : Nat) : sub32 a b < U32 :=
  Nat.mod_lt _ (by norm_num [U32])

/-- With the contactor commanded off, a quiet loop iteration emits no
failsafe event and leaves the state unchanged. -/
lemma loop_tick_off (t : Nat) (s : PeriphState) (h : s.contactorCmd = false) :
    loop_tick t none s = (s, false) := by
  unfold loop_tick post_cmd keepalive_check
  simp [h]

/-- With the contactor commanded off, a quiet run emits no failsafe
events and the contactor stays off. -/
lemma run_quiet_off (ts : List Nat) (s : PeriphState) (h : s.contactorCmd = false) :
    (run_quiet ts s).2 = 0 ∧ (run_quiet ts s).1.contactorCmd = false := by
  induction ts generalizing s with
  | nil => simpa [run_quiet] using h
  | cons t rest ih =>
      simp only [run_quiet, loop_tick_off t s h]
      simpa using ih s h

/-- Claim C1: whenever, after this tick's command dispatch, more than
6000 ms have elapsed since the last successfully processed `sys.ping`
and the contactor is commanded on, the unconditional keepalive check of
the periodic loop forces the contactor off and emits one
`evt:failsafe.keepalive` event — and every later quiet tick of that
on-episode emits none, so the episode sees exactly one event. -/
theorem keepalive_failsafe_once (now : Nat) (mc : Option HostCmd) (s : PeriphState)
    (hstale : 6000 < sub32 now (post_cmd now mc s).lastPingMs)
    (hon : (post_cmd now mc s).contactorCmd = true) :
    (loop_tick now mc s).2 = true ∧
    (loop_tick now mc s).1.contactorCmd = false ∧
    (loop_tick now mc s).1.contactorAux = false ∧
    ∀ ts : List Nat, (run_quiet ts (loop_tick now mc s).1).2 = 0 ∧
      (run_quiet ts (loop_tick now mc s).1).1.contactorCmd = false := by
  have hk : loop_tick now mc s =
      ({ post_cmd now mc s with contactorCmd := false, contactorAux := false }, true) := by
    unfold loop_tick keepalive_check
    simp [hstale, hon]
  refine ⟨by rw [hk], by rw [hk], by rw [hk], ?_⟩
  intro ts
  exact run_quiet_off ts _ (by rw [hk])

/-- Closed witness for C1: a silent host (no command), last ping at
boot, tick at 7000 ms with the contactor on: the event fires, the
contactor is forced off, and two further quiet ticks emit nothing. -/
theorem keepalive_failsafe_once_witness :
    (loop_tick 7000 none ⟨true, true, 0, 0⟩).2 = true ∧
    (loop_tick 7000 none ⟨true, true, 0, 0⟩).1.contactorCmd = false ∧
    (run_quiet [7200, 7400] (loop_tick 7000 none ⟨true, true, 0, 0⟩).1).2 = 0 :=
  have h := keepalive_failsafe_once 7000 none ⟨true, true, 0, 0⟩ (by decide) (by decide)
  ⟨h.1, h.2.1, (h.2.2.2 [7200, 7400]).1⟩

/-- Claim C2: a `contactor.set` with `on:true` whose timestamp is past
the armed window (in particular before any `sys.arm`, when
`g_armed_until_ms` is still 0) fails with error code 1001 `not_armed`
and mutates nothing: the returned state is the input state, with
`commanded` still false. -/
theorem contactor_set_not_armed (now : Nat) (s : PeriphState)
    (hcmd : s.contactorCmd = false)
    (h1 : 0 < sub32 now s.armedUntilMs)
    (h2 : sub32 now s.armedUntilMs < I32HALF) :
    contactor_set now true s = (s, .err 1001 "not_armed") ∧
    (contactor_set now true s).1.contactorCmd = false := by
  have hu : sub32 now s.armedUntilMs % U32 = sub32 now s.armedUntilMs :=
    Nat.mod_eq_of_lt (sub32_lt _ _)
  have hna : notArmed now s.armedUntilMs = true := by
    unfold notArmed int32OfUInt32
    rw [hu, if_pos h2]
    simpa using h1
  have hset : contactor_set now true s = (s, .err 1001 "not_armed") := by
    unfold contactor_set
    rw [hna]
    simp
  exact ⟨hset, by rw [hset]; exact hcmd⟩

/-- Closed witness for C2: no `sys.arm` ever ran (`armedUntilMs = 0`)
and the request arrives at 2000 ms. -/
theorem contactor_set_not_armed_witness :
    contactor_set 2000 true ⟨false, false, 0, 0⟩ =
      (⟨false, false, 0, 0⟩, .err 1001 "not_armed") :=
  (contactor_set_not_armed 2000 ⟨false, false, 0, 0⟩ (by decide) (by decide)
    (by decide)).1

/-- Claim C3: (1) the confirmation check of the `contactor.set` handler,
run after the armed check and the actuation writes: when turning on with
the auxiliary contact not confirming the command, it forces both
`commanded` and `auxiliaryObserved` back to false and fails with error
code 1002 `aux_mismatch`; (2) a `contactor.set` with `on:false` that
passes the armed check always succeeds.  (By C4 the firmware's simulated
actuation makes the mismatch case of (1) unreachable from the handler's
entry.) -/
theorem contactor_set_aux_policy :
    (∀ s : PeriphState, s.contactorAux ≠ s.contactorCmd →
      contactor_confirm true s =
        ({ s with contactorCmd := false, contactorAux := false },
          .err 1002 "aux_mismatch")) ∧
    (∀ (now : Nat) (s : PeriphState), notArmed now s.armedUntilMs = false →
      contactor_set now false s =
        ({ s with contactorCmd := false, contactorAux := false }, .ok true)) := by
  constructor
  · intro s hne
    unfold contactor_confirm
    have hb : (s.contactorAux == s.contactorCmd) = false := by
      simp only [beq_eq_false_iff_ne, ne_eq]
      exact hne
    simp [hb]
  · intro now s harm
    unfold contactor_set contactor_confirm
    simp [harm]

/-- Closed witness for C3: a state claiming aux≠cmd is forced off with
error 1002 by the confirmation check, and an armed off-request succeeds. -/
theorem contactor_set_aux_policy_witness :
    contactor_confirm true ⟨true, false, 0, 0⟩ =
      (⟨false, false, 0, 0⟩, .err 1002 "aux_mismatch") ∧
    contactor_set 100 false ⟨true, true, 2000, 0⟩ =
      (⟨false, false, 2000, 0⟩, .ok true) :=
  have h := contactor_set_aux_policy
  ⟨h.1 ⟨true, false, 0, 0⟩ (by decide), h.2 100 ⟨true, true, 2000, 0⟩ (by decide)⟩

/-- Claim C4: the simulated actuation writes `auxiliaryObserved := on`
and `commanded := on` before the confirmation re-read, so every armed
`contactor.set` passes the auxiliary check and answers a result frame
with `aux_ok = true`; the `aux_mismatch` error branch (code 1002) is
unreachable for all requests. -/
theorem contactor_set_aux_always_ok (now : Nat) (onv : Bool) (s : PeriphState)
    (harm : notArmed now s.armedUntilMs = false) :
    contactor_set now onv s =
      ({ s with contactorCmd := onv, contactorAux := onv }, .ok true) ∧
    ∀ (now2 : Nat) (onv2 : Bool) (s2 : PeriphState),
      (contactor_set now2 onv2 s2).2 ≠ .err 1002 "aux_mismatch" := by
  constructor
  · unfold contactor_set contactor_confirm
    simp [harm]
  · intro now2 onv2 s2
    unfold contactor_set contactor_confirm
    split_ifs <;> simp_all

/-- Closed witness for C4: an armed on-request at 100 ms (window open to
2000 ms) succeeds with `aux_ok = true`, and a concrete unarmed request
also cannot produce error 1002. -/
theorem contactor_set_aux_always_ok_witness :
    contactor_set 100 true ⟨false, false, 2000, 0⟩ =
      (⟨true, true, 2000, 0⟩, .ok true) ∧
    (contactor_set 5000 true ⟨false, false, 0, 0⟩).2 ≠ .err 1002 "aux_mismatch" :=
  have h := contactor_set_aux_always_ok 100 true ⟨false, false, 2000, 0⟩ (by decide)
  ⟨h.1, h.2 5000 true ⟨false, false, 0, 0⟩⟩

/-- `OpMode`: MANUAL or DC_AUTO (`g_mode`). -/
inductive OpMode where
  | MANUAL
  | DC_AUTO
deriving DecidableEq, Repr

/-- The CP-side configuration touched by `auto_calibrate_thresholds`:
`g_mode`, `g_pwm_enabled`, `g_pwm_duty_pct` and the threshold set. -/
structure CpConfig where
  mode : OpMode
  pwmEnabled : Bool
  pwmDutyPct : Nat
  th : Thresholds
deriving DecidableEq, Repr

/-- The bursts whose robust plateau was positive (`if (smax > 0)` in the
calibration loop). -/
def valid_bursts (bursts : List Int) : List Int :=
  bursts.filter (fun smax => 0 < smax)

/-- `v12` in `auto_calibrate_thresholds`: the accumulated positive
plateaus divided by their count (C++ integer division on nonnegative
operands). -/
def v_idle (bursts : List Int) : Int :=
  (valid_bursts bursts).foldl (· + ·) 0 / ((valid_bursts bursts).length : Int)

/-- `auto_calibrate_thresholds`, with the six hardware burst readings
(`smax` of each `read_cp_mv_stats` call) supplied as input: force
MANUAL/disabled, sample, restore the saved mode and PWM settings, then
either abort (no valid burst, or `v12 < 2800`) leaving the thresholds
untouched, or rescale `t12/t9/t6/t3` as `v12·num/120` keeping `t0` and
the hysteresis margins. -/
def auto_calibrate_thresholds (bursts : List Int) (c : CpConfig) : CpConfig × Bool :=
  let c1 : CpConfig := { c with mode := .MANUAL, pwmEnabled := false }
  let c2 : CpConfig :=
    { c1 with mode := c.mode, pwmEnabled := c.pwmEnabled, pwmDutyPct := c.pwmDutyPct }
  if (valid_bursts bursts).length = 0 then (c2, false)
  else
    let v12 := v_idle bursts
    if v12 < 2800 then (c2, false)
    else
      let th2 : Thresholds :=
        { c2.th with t12 := v12 * 105 / 120, t9 := v12 * 75 / 120,
                     t6 := v12 * 45 / 120, t3 := v12 * 15 / 120 }
      ({ c2 with th := th2 }, true)

/-- A legacy command response frame: `ok` or `error` with a message. -/
inductive LegacyResp where
  | okFrame
  | errFrame (msg : String)
deriving DecidableEq, Repr

/-- The `cp.auto_cal` command handler: run the calibrator and answer
`ok` or `error: cal_failed`. -/
def cp_auto_cal_cmd (bursts : List Int) (c : CpConfig) : CpConfig × LegacyResp :=
  let r := auto_calibrate_thresholds bursts c
  (r.1, if r.2 then .okFrame else .errFrame "cal_failed")

/-- Claim C5: when auto-calibration measures an averaged idle plateau
below the 2800 mV plausibility floor, `cp.auto_cal` answers the error
frame `cal_failed` and the whole configuration — all five thresholds,
both hysteresis margins, the operating mode and the PWM enable/duty
settings — is exactly unchanged; moreover the saved mode and PWM
settings are restored for every burst outcome, success or failure. -/
theorem auto_cal_failure_unchanged (bursts : List Int) (c : CpConfig)
    (hn : bursts.length = 6)
    (hv : (valid_bursts bursts).length ≠ 0)
    (hlow : v_idle bursts < 2800) :
    cp_auto_cal_cmd bursts c = (c, .errFrame "cal_failed") ∧
    ∀ (bs : List Int) (d : CpConfig),
      (auto_calibrate_thresholds bs d).1.mode = d.mode ∧
      (auto_calibrate_thresholds bs d).1.pwmEnabled = d.pwmEnabled ∧
      (auto_calibrate_thresholds bs d).1.pwmDutyPct = d.pwmDutyPct := by
  constructor
  · obtain ⟨m, en, duty, t⟩ := c
    unfold cp_auto_cal_cmd auto_calibrate_thresholds
    dsimp only
    rw [if_neg hv, if_pos hlow]
    rfl
  · intro bs d
    obtain ⟨m, en, duty, t⟩ := d
    unfold auto_calibrate_thresholds
    dsimp only
    split_ifs <;> exact ⟨rfl, rfl, rfl⟩

/-- Closed witness for C5: six bursts of 1000 mV average to 1000 mV,
below the floor; the configuration is returned untouched with the
`cal_failed` error frame. -/
theorem auto_cal_failure_unchanged_witness :
    cp_auto_cal_cmd [1000, 1000, 1000, 1000, 1000, 1000]
        ⟨.DC_AUTO, false, 0, defaultThresholds⟩ =
      (⟨.DC_AUTO, false, 0, defaultThresholds⟩, .errFrame "cal_failed") :=
  (auto_cal_failure_unchanged [1000, 1000, 1000, 1000, 1000, 1000]
    ⟨.DC_AUTO, false, 0, defaultThresholds⟩ (by decide) (by decide) (by decide)).1

/-- Claim C6: on successful auto-calibration with averaged idle plateau
`V = v_idle bursts ≥ 2800`, the new thresholds are exactly
`t12 = V·105/120`, `t9 = V·75/120`, `t6 = V·45/120`, `t3 = V·15/120`
(integer multiply, truncating division), while `t0`, `hys` and `hys_ab`
keep their prior values (and mode and PWM settings are restored). -/
theorem auto_cal_success_values (bursts : List Int) (c : CpConfig)
    (hn : bursts.length = 6)
    (hv : (valid_bursts bursts).length ≠ 0)
    (hhigh : 2800 ≤ v_idle bursts) :
    (auto_calibrate_thresholds bursts c).2 = true ∧
    (auto_calibrate_thresholds bursts c).1.th.t12 = v_idle bursts * 105 / 120 ∧
    (auto_calibrate_thresholds bursts c).1.th.t9 = v_idle bursts * 75 / 120 ∧
    (auto_calibrate_thresholds bursts c).1.th.t6 = v_idle bursts * 45 / 120 ∧
    (auto_calibrate_thresholds bursts c).1.th.t3 = v_idle bursts * 15 / 120 ∧
    (auto_calibrate_thresholds bursts c).1.th.t0 = c.th.t0 ∧
    (auto_calibrate_thresholds bursts c).1.th.hys = c.th.hys ∧
    (auto_calibrate_thresholds bursts c).1.th.hysAb = c.th.hysAb ∧
    (auto_calibrate_thresholds bursts c).1.mode = c.mode ∧
    (auto_calibrate_thresholds bursts c).1.pwmEnabled = c.pwmEnabled ∧
    (auto_calibrate_thresholds bursts c).1.pwmDutyPct = c.pwmDutyPct := by
  have hcal : auto_calibrate_thresholds bursts c =
      ({ c with th := { c.th with
          t12 := v_idle bursts * 105 / 120,
          t9 := v_idle bursts * 75 / 120,
          t6 := v_idle bursts * 45 / 120,
          t3 := v_idle bursts * 15 / 120 } }, true) := by
    obtain ⟨m, en, duty, t⟩ := c
    unfold auto_calibrate_thresholds
    dsimp only
    rw [if_neg hv, if_neg (by omega)]
  rw [hcal]
  exact ⟨rfl, rfl, rfl, rfl, rfl, rfl, rfl, rfl, rfl, rfl, rfl⟩

/-- Closed witness for C6: six bursts of 3000 mV give `v_idle = 3000`,
above the floor; calibration succeeds, `t12` follows the 105/120
proportion and `t0` is untouched. -/
theorem auto_cal_success_values_witness :
    (auto_calibrate_thresholds [3000, 3000, 3000, 3000, 3000, 3000]
        ⟨.DC_AUTO, false, 0, defaultThresholds⟩).2 = true ∧
    (auto_calibrate_thresholds [3000, 3000, 3000, 3000, 3000, 3000]
        ⟨.DC_AUTO, false, 0, defaultThresholds⟩).1.th.t12 =
      v_idle [3000, 3000, 3000, 3000, 3000, 3000] * 105 / 120 ∧
    (auto_calibrate_thresholds [3000, 3000, 3000, 3000, 3000, 3000]
        ⟨.DC_AUTO, false, 0, defaultThresholds⟩).1.th.t0 = 1250 :=
  have h := auto_cal_success_values [3000, 3000, 3000, 3000, 3000, 3000]
    ⟨.DC_AUTO, false, 0, defaultThresholds⟩ (by decide) (by decide) (by decide)
  ⟨h.1, h.2.1, h.2.2.2.2.2.1⟩

/-- Field layout of the `thresh` object written by `send_status_json`
(the frame emitted after commands): all seven fields. -/
def send_status_thresh (th : Thresholds) : List (String × Int) :=
  [("t12", th.t12), ("t9", th.t9), ("t6", th.t6), ("t3", th.t3), ("t0", th.t0),
    ("hys", th.hys), ("hys_ab", th.hysAb)]

/-- Field layout of the `thresh` object written inline by the periodic
~200 ms status frame in `loop`: it stops after `hys`. -/
def periodic_status_thresh (th : Thresholds) : List (String × Int) :=
  [("t12", th.t12), ("t9", th.t9), ("t6", th.t6), ("t3", th.t3), ("t0", th.t0),
    ("hys", th.hys)]

/-- Claim C10 evaluated against the code: the command-triggered frame's
`thresh` object carries all seven fields including `hys_ab`, but the
periodic status frame's `thresh` object has no `hys_ab` key — the
inline duplicate in `loop` omits it, contradicting both the documented
frame format and the firmware's own `send_status_json`. -/
theorem periodic_frame_missing_hys_ab (th : Thresholds) :
    (send_status_thresh th).map Prod.fst =
      ["t12", "t9", "t6", "t3", "t0", "hys", "hys_ab"] ∧
    (periodic_status_thresh th).map Prod.fst =
      ["t12", "t9", "t6", "t3", "t0", "hys"] ∧
    (periodic_status_thresh th).lookup "hys_ab" = none ∧
    (send_status_thresh th).lookup "hys_ab" = some th.hysAb := by
  refine ⟨rfl, rfl, rfl, ?_⟩
  simp [send_status_thresh, List.lookup]

end CpFw
